import Mathlib

/-!
Shallow embedding of the client code of the Foursquare "Finding Relevant
Places" repository (`app/static/js/main.js` and `app/static/js/analytics.js`).

The `ChoksApp` class drives a location-analysis form: it validates the two
required fields, shows a loading modal, issues one `POST /api/analyze`,
renders either a result card or an inline error panel, and always hides the
loading modal in a `finally` block.  A save button appends a record to the
`savedAnalyses` entry of browser-local storage, and an `Analytics` class
fires best-effort `POST /api/analytics` events whose failures are only
logged.

Modelling conventions:
* JS numbers that carry scores are modelled as `ℚ` (the payloads in scope
  are finite decimals; NaN/Infinity are outside the modelled contract).
  `Math.round` is `jsRound`, the round-half-up floor of `q + 1/2`.
* The dynamic JSON payload of `/api/analyze` is modelled by `AnalyzeResult`
  with `Option` fields where the code may face a missing property; property
  access on `undefined` is a thrown `JsError.typeError`.
* The DOM output of `displayResults` is modelled as an `Html` tree whose
  nodes carry their class list; a section the template renders as the empty
  string is simply absent from the children list.  Incidental whitespace of
  the template literal is not modelled.
* Network effects are resolved by an `AnalyzeOutcome` oracle passed to the
  handler; the handler itself is a pure function from form inputs and the
  oracle to a list of UI events plus the (always absent, because the
  `catch` is total) uncaught exception.
* Browser-local storage under the key `savedAnalyses` is one cell, `none`
  when absent; a present string is abstracted by `Stored`: a valid JSON
  array of records, the empty string (falsy in JS, so the `|| '[]'`
  fallback fires), or some other string `JSON.parse` rejects.
-/

/-- JS exceptions that the modelled code can throw. -/
inductive JsError where
  | typeError
  | fetchRejected
  | jsonParseError
deriving DecidableEq, Repr

/-- `Math.round` on a rational: round half toward positive infinity,
mirroring JS semantics (`Math.round(2.5) = 3`, `Math.round(-2.5) = -2`). -/
def jsRound (q : ℚ) : ℤ := ⌊q + 1 / 2⌋

/-- Embeds `getConfidenceClass` of `main.js` (lines 199-203). -/
def getConfidenceClass (score : ℚ) : String :=
  if score ≥ 70 then "confidence-high"
  else if score ≥ 50 then "confidence-medium"
  else "confidence-low"

/-- Embeds `result.error || 'Analysis failed'`: JS `||` takes the fallback
when the left side is absent (`undefined`) or the empty string (falsy). -/
def jsOrString (o : Option String) (fallback : String) : String :=
  match o with
  | some s => if s = "" then fallback else s
  | none => fallback

/-- The `insights` object of a recommendation payload. -/
structure Insights where
  foot_traffic_score : ℚ
  competition_density : ℚ
  demographic_match : ℚ
  category_gaps : List String
  nearby_attractions : List String
  risk_factors : List String
  optimal_hours : List String

/-- The `recommendation` object of an analyze payload.  `insights` is an
`Option` because a malformed payload may omit it (claim C6). -/
structure Recommendation where
  confidence_score : ℚ
  reasoning : String
  estimated_revenue_potential : String
  setup_requirements : List String
  recommended_duration : String
  insights : Option Insights

/-- The parsed JSON body of a `/api/analyze` response. -/
structure AnalyzeResult where
  success : Bool
  analysis_id : Option String
  recommendation : Option Recommendation
  error : Option String

/-- A DOM subtree: text nodes and elements carrying tag, class list and
children. -/
inductive Html where
  | text (s : String)
  | elem (tag : String) (classes : List String) (children : List Html)

mutual

/-- All nodes of a subtree (the subtree root included) that carry the given
CSS class, in document order. -/
def Html.byClass (c : String) : Html → List Html
  | .text _ => []
  | .elem t cs ch =>
      (if c ∈ cs then [Html.elem t cs ch] else []) ++ Html.byClassList c ch

/-- `Html.byClass` over a list of sibling subtrees. -/
def Html.byClassList (c : String) : List Html → List Html
  | [] => []
  | h :: hs => Html.byClass c h ++ Html.byClassList c hs

end

mutual

/-- The concatenated text content of a subtree. -/
def Html.textContent : Html → String
  | .text s => s
  | .elem _ _ ch => Html.textContentList ch

/-- `Html.textContent` over a list of sibling subtrees. -/
def Html.textContentList : List Html → String
  | [] => ""
  | h :: hs => Html.textContent h ++ Html.textContentList hs

end

example :
    Html.byClass "a" (.elem "div" ["a"] [.elem "p" ["a", "b"] [.text "x"]])
      = [.elem "div" ["a"] [.elem "p" ["a", "b"] [.text "x"]],
         .elem "p" ["a", "b"] [.text "x"]] := by
  simp [Html.byClass, Html.byClassList]

example : jsRound (82.4 : ℚ) = 82 := by norm_num [jsRound]
example : jsRound (-5/2 : ℚ) = -2 := by norm_num [jsRound]
example : getConfidenceClass 82.4 = "confidence-high" := by
  rw [getConfidenceClass, if_pos (by norm_num)]

/-! ## The rendered result card (`displayResults`, lines 94-197) -/

/-- One tile of the metrics grid. -/
def metricCard (value label : String) : Html :=
  .elem "div" ["metric-card"]
    [.elem "div" ["metric-value"] [.text value],
     .elem "div" ["metric-label"] [.text label]]

/-- The four metric tiles, in template order. -/
def metricsGrid (ins : Insights) : Html :=
  .elem "div" ["metrics-grid"]
    [metricCard (toString (jsRound ins.foot_traffic_score)) "Foot Traffic Score",
     metricCard (toString (jsRound ins.competition_density)) "Market Opportunity",
     metricCard (toString (jsRound ins.demographic_match)) "Demographic Match",
     metricCard (toString ins.category_gaps.length) "Market Gaps"]

/-- The conditional `category-gaps` block: rendered only when the list is
non-empty, otherwise the template contributes the empty string. -/
def gapsSection (gaps : List String) : List Html :=
  if gaps.length > 0 then
    [.elem "div" ["category-gaps"]
      [.elem "h4" [] [.text "Market Opportunities"],
       .elem "p" []
         [.text ("Underserved categories: " ++ String.intercalate ", " gaps)]]]
  else []

/-- The conditional `attractions` block. -/
def attractionsSection (attractions : List String) : List Html :=
  if attractions.length > 0 then
    [.elem "div" ["attractions"]
      [.elem "h4" [] [.text "Nearby Attractions"],
       .elem "p" [] [.text (String.intercalate ", " attractions)]]]
  else []

/-- The conditional `risk-factors` block: one `li` per risk, in order. -/
def risksSection (risks : List String) : List Html :=
  if risks.length > 0 then
    [.elem "div" ["risk-factors"]
      [.elem "h4" [] [.text "Risk Factors"],
       .elem "ul" [] (risks.map fun r => Html.elem "li" [] [Html.text r])]]
  else []

/-- The `recommendation-card` subtree the template literal of
`displayResults` builds from a well-shaped payload. -/
def renderCard (result : AnalyzeResult) (rec : Recommendation)
    (ins : Insights) : Html :=
  .elem "div" ["recommendation-card"]
    [.elem "div" ["recommendation-header"]
       [.elem "h2" [] [.text "Location Analysis Results"],
        .elem "span" ["confidence-score", getConfidenceClass rec.confidence_score]
          [.text (toString (jsRound rec.confidence_score) ++ "% Confidence")]],
     metricsGrid ins,
     .elem "div" ["analysis-details"]
       ([.elem "h3" [] [.text "Key Insights"],
         .elem "p" ["reasoning"] [.text rec.reasoning],
         .elem "div" ["revenue-estimate"]
           [.elem "h4" [] [.text "Revenue Potential"],
            .elem "p" [] [.text rec.estimated_revenue_potential]],
         .elem "div" ["optimal-hours"]
           [.elem "h4" [] [.text "Recommended Hours"],
            .elem "p" [] [.text (String.intercalate ", " ins.optimal_hours)]]]
        ++ gapsSection ins.category_gaps
        ++ attractionsSection ins.nearby_attractions
        ++ risksSection ins.risk_factors
        ++ [.elem "div" ["setup-requirements"]
              [.elem "h4" [] [.text "Setup Requirements"],
               .elem "ul" ["insights-list"]
                 (rec.setup_requirements.map fun r => Html.elem "li" [] [Html.text r])],
            .elem "div" ["duration-recommendation"]
              [.elem "h4" [] [.text "Recommended Duration"],
               .elem "p" [] [.text rec.recommended_duration]]]),
     .elem "div" ["action-buttons"]
       [.elem "button" ["btn", "btn-primary"]
          [.text ("Save Analysis:" ++ result.analysis_id.getD "undefined")],
        .elem "button" ["btn", "btn-secondary"] [.text "New Analysis"]]]

/-- `displayResults` up to the DOM write: the JS reads
`result.recommendation` and then `recommendation.insights`; property access
on `undefined` throws a `TypeError` before any HTML is produced (in JS the
missing-`insights` throw happens while the template string is evaluated,
likewise before `innerHTML` is assigned). -/
def displayResults (result : AnalyzeResult) : Except JsError Html :=
  match result.recommendation with
  | none => .error .typeError
  | some rec =>
    match rec.insights with
    | none => .error .typeError
    | some ins => .ok (renderCard result rec ins)

/-! ## DOM state and the submission handler (`handleLocationAnalysis`) -/

/-- One top-level block of `results-content`: `displayResults` and
`showError` assign `innerHTML` (a single block), `showSuccess` prepends a
banner in front of the existing content. -/
inductive Block where
  | card (h : Html)
  | errorPanel (msg : String)
  | successBanner (msg : String)

/-- Blocks that count as an analysis result or error panel (the success
banner is neither). -/
def Block.isResultPanel : Block → Bool
  | .card _ => true
  | .errorPanel _ => true
  | .successBanner _ => false

/-- The DOM state the client mutates: the loading modal's `hidden` class,
the results section's `hidden` class, and the children of
`results-content`. -/
structure Dom where
  loadingHidden : Bool
  resultsHidden : Bool
  content : List Block

/-- The page state before any interaction: modal hidden, results hidden,
no content. -/
def initDom : Dom := ⟨true, true, []⟩

/-- The JSON body sent to `POST /api/analyze`. -/
structure AnalyzeRequest where
  location : String
  business_type : String
  target_demographics : List String
deriving DecidableEq, Repr

/-- How the single `fetch('/api/analyze')` of a submission resolves:
the promise rejects, `response.json()` throws, or a parsed body arrives
together with `response.ok`. -/
inductive AnalyzeOutcome where
  | netFail
  | jsonFail (ok : Bool)
  | response (ok : Bool) (body : AnalyzeResult)

/-- Observable UI actions of the handler, in execution order. -/
inductive Ev where
  | showLoading
  | hideLoading
  | fetchAnalyze (req : AnalyzeRequest)
  | renderCardEv (h : Html)
  | renderErrorEv (msg : String)

/-- Discriminators used to count events. -/
def Ev.isShowLoading : Ev → Bool
  | .showLoading => true
  | _ => false

def Ev.isHideLoading : Ev → Bool
  | .hideLoading => true
  | _ => false

def Ev.isFetch : Ev → Bool
  | .fetchAnalyze _ => true
  | _ => false

/-- Effect of one UI event on the DOM: `showLoading`/`hideLoading` toggle
the modal class; `displayResults` and `showError` both overwrite
`results-content.innerHTML` with a single block and unhide the results
section. -/
def applyEv (d : Dom) : Ev → Dom
  | .showLoading => { d with loadingHidden := false }
  | .hideLoading => { d with loadingHidden := true }
  | .fetchAnalyze _ => d
  | .renderCardEv h => { d with content := [.card h], resultsHidden := false }
  | .renderErrorEv m => { d with content := [.errorPanel m], resultsHidden := false }

/-- Run a trace of events against a DOM state. -/
def runEvents (d : Dom) (evs : List Ev) : Dom := evs.foldl applyEv d

/-- The validation message of lines 39-42. -/
def validationMsg : String := "Please fill in all required fields"

/-- The generic catch-all message of line 67. -/
def networkErrorMsg : String := "Network error: Please check your connection"

/-- Events of the `try` block (lines 46-66) plus the exception it throws,
if any: the fetch happens first; a rejected promise or a `json()` throw
escapes; with a parsed body, `response.ok && result.success` selects
between `displayResults` (which may itself throw, claim C6) and
`showError(result.error || 'Analysis failed')`. -/
def tryBlock (req : AnalyzeRequest) (o : AnalyzeOutcome) :
    List Ev × Option JsError :=
  match o with
  | .netFail => ([.fetchAnalyze req], some .fetchRejected)
  | .jsonFail _ => ([.fetchAnalyze req], some .jsonParseError)
  | .response ok body =>
    if ok ∧ body.success then
      match displayResults body with
      | .ok h => ([.fetchAnalyze req, .renderCardEv h], none)
      | .error e => ([.fetchAnalyze req], some e)
    else
      ([.fetchAnalyze req,
        .renderErrorEv (jsOrString body.error "Analysis failed")], none)

/-- What one run of the handler did: its UI events in order, and the
exception that escaped it (always `none` here, since the `catch` at line
66 is total and does not rethrow). -/
structure HandlerRun where
  events : List Ev
  uncaught : Option JsError

/-- Embeds `handleLocationAnalysis` (lines 28-71).  `location` and
`businessType` are the submitted field values (`FormData.get`; the fields
exist on the page, so a missing value is the empty string, which is falsy);
`demo` is the list of checked demographic values; `o` resolves the single
fetch.  Structure: early-return validation, then
`showLoading; try ... catch showError(networkErrorMsg) finally hideLoading`. -/
def handleLocationAnalysis (location businessType : String)
    (demo : List String) (o : AnalyzeOutcome) : HandlerRun :=
  if location = "" ∨ businessType = "" then
    ⟨[.renderErrorEv validationMsg], none⟩
  else
    let req : AnalyzeRequest := ⟨location, businessType, demo⟩
    match tryBlock req o with
    | (evs, none) => ⟨.showLoading :: evs ++ [.hideLoading], none⟩
    | (evs, some _) =>
        ⟨.showLoading :: evs ++ [.renderErrorEv networkErrorMsg, .hideLoading],
         none⟩

/-- The `results-content` children after a submission runs against a fresh
page. -/
def submitContent (location businessType : String) (demo : List String)
    (o : AnalyzeOutcome) : List Block :=
  (runEvents initDom (handleLocationAnalysis location businessType demo o).events).content

/-! ## Browser-local storage and `saveAnalysis` (lines 219-230) -/

/-- One record of the `savedAnalyses` array. -/
structure SavedRecord where
  id : String
  timestamp : String
  location : String
deriving DecidableEq, Repr

/-- Abstraction of a present string value of the `savedAnalyses` key:
either a valid JSON array of records, the empty string (falsy in JS, so
`getItem(...) || missingEntryFallback` replaces it), or any other string that
`JSON.parse` rejects. -/
inductive Stored where
  | jsonArr (records : List SavedRecord)
  | emptyStr
  | invalid
deriving DecidableEq

/-- `JSON.parse(localStorage.getItem('savedAnalyses') || '[]')`: an absent
entry (`getItem` returns `null`) and an empty-string entry both fall back
to the literal `[]`; a present non-empty unparsable string throws. -/
def readSavedAnalyses (store : Option Stored) :
    Except JsError (List SavedRecord) :=
  match store with
  | none => .ok []
  | some .emptyStr => .ok []
  | some (.jsonArr l) => .ok l
  | some .invalid => .error .jsonParseError

/-- The persisted sequence an observer reads back (defined on the states
where reading does not throw; `invalid` has no sequence). -/
def storedSeq (store : Option Stored) : List SavedRecord :=
  (readSavedAnalyses store).toOption.getD []

/-- Embeds `saveAnalysis`: parse the stored entry (or default), push
`{id, timestamp, location}`, serialize the whole array back.  `ts` is
`new Date().toISOString()` and `locValue` the current value of the
`location` input at save time.  A parse throw escapes before the push, so
the stored value is untouched and no banner follows. -/
def saveAnalysis (store : Option Stored) (analysisId ts locValue : String) :
    Except JsError (Option Stored) :=
  match readSavedAnalyses store with
  | .error e => .error e
  | .ok l => .ok (some (.jsonArr (l ++ [⟨analysisId, ts, locValue⟩])))

/-! ## Page-level operations and the analytics reporter -/

/-- Whole-page state: the DOM plus the `savedAnalyses` storage cell. -/
structure AppState where
  dom : Dom
  storage : Option Stored

/-- The page as loaded: fresh DOM, nothing persisted yet. -/
def initApp : AppState := ⟨initDom, none⟩

/-- `showSuccess` (lines 239-250): prepend a success banner to the
existing `results-content` children. -/
def showSuccess (msg : String) (d : Dom) : Dom :=
  { d with content := .successBanner msg :: d.content }

/-- `newAnalysis` (lines 232-237): reset the form, hide the results
section, focus the location input.  Only the `hidden` class is part of the
DOM model; the form fields and focus are not. -/
def newAnalysis (d : Dom) : Dom := { d with resultsHidden := true }

/-- A user interaction with the page: a form submission (with its network
outcome), a click on the save button (with the id on the button and the
current location value and clock reading), or a click on New Analysis. -/
inductive Op where
  | submit (location businessType : String) (demo : List String) (o : AnalyzeOutcome)
  | save (analysisId ts locValue : String)
  | reset

/-- Run one interaction.  A `save` whose `JSON.parse` throws escapes the
click handler: the page keeps its state and no banner is shown. -/
def runOp (s : AppState) : Op → AppState
  | .submit location businessType demo o =>
      { s with dom := runEvents s.dom (handleLocationAnalysis location businessType demo o).events }
  | .save analysisId ts locValue =>
      match saveAnalysis s.storage analysisId ts locValue with
      | .error _ => s
      | .ok st => ⟨showSuccess "Analysis saved successfully!" s.dom, st⟩
  | .reset => { s with dom := newAnalysis s.dom }

/-- Run a sequence of interactions from a state. -/
def runOps (s : AppState) (ops : List Op) : AppState := ops.foldl runOp s

/-- Perform a sequence of saves against the storage cell alone; a save
whose parse throws leaves the cell as it was. -/
def runSaves (st : Option Stored) (entries : List (String × String × String)) :
    Option Stored :=
  entries.foldl
    (fun s e =>
      match saveAnalysis s e.1 e.2.1 e.2.2 with
      | .ok st2 => st2
      | .error _ => s)
    st

/-- The record a save appends, from the id on the button, the clock, and
the location field value. -/
def mkSavedRecord (e : String × String × String) : SavedRecord :=
  ⟨e.1, e.2.1, e.2.2⟩

/-- How many rendered blocks are result cards or error panels. -/
def panelCount (bs : List Block) : ℕ := (bs.filter Block.isResultPanel).length

/-- How many result/error panels are actually rendered: none when the
results section carries the `hidden` class. -/
def renderedPanels (d : Dom) : ℕ :=
  if d.resultsHidden then 0 else panelCount d.content

/-- One analytics payload (`{event_type, data}`). -/
structure AnalyticsEvent where
  event_type : String
  data : List (String × String)

/-- How the `fetch('/api/analytics')` promise settles. -/
inductive AnalyticsOutcome where
  | resolved
  | rejected (e : String)

/-- The raw network send of `Analytics.sendEvent` before the `.catch`. -/
def analyticsFetch (o : AnalyticsOutcome) : Except String Unit :=
  match o with
  | .resolved => .ok ()
  | .rejected e => .error e

/-- Embeds `Analytics.sendEvent` (lines 297-312): fire the request and
attach `.catch(error => console.debug('Analytics error:', error))`.  The
result is the unchanged page state plus the debug-log lines produced; the
function is total, so no exception reaches the caller. -/
def sendEvent (s : AppState) (_ev : AnalyticsEvent) (o : AnalyticsOutcome) :
    AppState × List String :=
  match analyticsFetch o with
  | .ok _ => (s, [])
  | .error e => (s, ["Analytics error: " ++ e])


/-! ## Theorems -/

/-- Any successfully-validated handler run: loading shown first, then the
single fetch, a middle part free of loading and fetch events, and
`hideLoading` as the very last action. -/
theorem handler_events_shape (location businessType : String)
    (demo : List String) (o : AnalyzeOutcome)
    (h1 : location ≠ "") (h2 : businessType ≠ "") :
    ∃ mid : List Ev,
      (handleLocationAnalysis location businessType demo o).events =
        Ev.showLoading ::
          (Ev.fetchAnalyze ⟨location, businessType, demo⟩ :: mid) ++ [Ev.hideLoading] ∧
      mid.countP Ev.isShowLoading = 0 ∧
      mid.countP Ev.isHideLoading = 0 ∧
      mid.countP Ev.isFetch = 0 := by
  have hcond : ¬(location = "" ∨ businessType = "") := by
    rintro (h | h)
    · exact h1 h
    · exact h2 h
  rw [handleLocationAnalysis, if_neg hcond]
  rcases o with _ | ok | ⟨ok, body⟩
  · exact ⟨[Ev.renderErrorEv networkErrorMsg], by simp [tryBlock, List.countP_cons,
      Ev.isShowLoading, Ev.isHideLoading, Ev.isFetch]⟩
  · exact ⟨[Ev.renderErrorEv networkErrorMsg], by simp [tryBlock, List.countP_cons,
      Ev.isShowLoading, Ev.isHideLoading, Ev.isFetch]⟩
  · by_cases hok : ok = true ∧ body.success = true
    · rcases hdr : displayResults body with e | html
      · exact ⟨[Ev.renderErrorEv networkErrorMsg], by simp [tryBlock, hok, hdr,
          List.countP_cons, Ev.isShowLoading, Ev.isHideLoading, Ev.isFetch]⟩
      · exact ⟨[Ev.renderCardEv html], by simp [tryBlock, hok, hdr,
          List.countP_cons, Ev.isShowLoading, Ev.isHideLoading, Ev.isFetch]⟩
    · exact ⟨[Ev.renderErrorEv (jsOrString body.error "Analysis failed")],
        by simp [tryBlock, hok, List.countP_cons,
          Ev.isShowLoading, Ev.isHideLoading, Ev.isFetch]⟩

/-- The last entry of a list that ends in an explicit final element. -/
theorem getLast?_of_snoc {α : Type} (l : List α) (a : α) :
    (l ++ [a]).getLast? = some a := by simp

/-- C1: for every submission that passes the non-emptiness validation, the
loading indicator is shown first (before the analyze request is issued,
which is the second action), hidden exactly once, as the very last action
(after the outcome is known), and after the run the modal carries the
`hidden` class whatever DOM state the run started from — on every path:
successful render, backend-failure render, network failure, and exceptions
thrown while handling the response. -/
theorem claim_C1_loading_indicator (location businessType : String)
    (demo : List String) (o : AnalyzeOutcome)
    (h1 : location ≠ "") (h2 : businessType ≠ "") :
    (handleLocationAnalysis location businessType demo o).events.head? =
        some Ev.showLoading ∧
    (handleLocationAnalysis location businessType demo o).events[1]? =
        some (Ev.fetchAnalyze ⟨location, businessType, demo⟩) ∧
    (handleLocationAnalysis location businessType demo o).events.countP
        Ev.isShowLoading = 1 ∧
    (handleLocationAnalysis location businessType demo o).events.countP
        Ev.isHideLoading = 1 ∧
    (handleLocationAnalysis location businessType demo o).events.getLast? =
        some Ev.hideLoading ∧
    (runEvents initDom
        (handleLocationAnalysis location businessType demo o).events).loadingHidden
      = true := by
  obtain ⟨mid, hsh, hshow, hhide, -⟩ :=
    handler_events_shape location businessType demo o h1 h2
  rw [hsh]
  refine ⟨rfl, by simp, ?_, ?_, ?_, ?_⟩
  · simp [List.countP_cons, List.countP_append, hshow, Ev.isShowLoading,
      Ev.isHideLoading]
  · simp [List.countP_cons, List.countP_append, hhide, Ev.isShowLoading,
      Ev.isHideLoading]
  · exact getLast?_of_snoc _ _
  · simp [runEvents, List.foldl_append, applyEv]

/-- Witness for C1 at a concrete passing submission and a network
failure. -/
theorem claim_C1_witness :
    (handleLocationAnalysis "Downtown Plaza" "food_truck"
        ["young_professionals"] .netFail).events.head? = some Ev.showLoading ∧
    (handleLocationAnalysis "Downtown Plaza" "food_truck"
        ["young_professionals"] .netFail).events[1]? =
        some (Ev.fetchAnalyze
          ⟨"Downtown Plaza", "food_truck", ["young_professionals"]⟩) ∧
    (handleLocationAnalysis "Downtown Plaza" "food_truck"
        ["young_professionals"] .netFail).events.countP Ev.isShowLoading = 1 ∧
    (handleLocationAnalysis "Downtown Plaza" "food_truck"
        ["young_professionals"] .netFail).events.countP Ev.isHideLoading = 1 ∧
    (handleLocationAnalysis "Downtown Plaza" "food_truck"
        ["young_professionals"] .netFail).events.getLast? =
        some Ev.hideLoading ∧
    (runEvents initDom
        (handleLocationAnalysis "Downtown Plaza" "food_truck"
          ["young_professionals"] .netFail).events).loadingHidden = true :=
  claim_C1_loading_indicator "Downtown Plaza" "food_truck"
    ["young_professionals"] .netFail (by decide) (by decide)

/-- C5: a submission with an empty location or an empty business type
renders the validation-error panel and nothing else: in particular no
`/api/analyze` request is issued and the loading modal is never touched. -/
theorem claim_C5_empty_fields (location businessType : String)
    (demo : List String) (o : AnalyzeOutcome)
    (h : location = "" ∨ businessType = "") :
    handleLocationAnalysis location businessType demo o =
      ⟨[.renderErrorEv validationMsg], none⟩ ∧
    (handleLocationAnalysis location businessType demo o).events.countP
        Ev.isFetch = 0 ∧
    (handleLocationAnalysis location businessType demo o).events.countP
        Ev.isShowLoading = 0 ∧
    submitContent location businessType demo o =
      [.errorPanel validationMsg] := by
  have he : handleLocationAnalysis location businessType demo o =
      ⟨[.renderErrorEv validationMsg], none⟩ := by
    rw [handleLocationAnalysis, if_pos h]
  refine ⟨he, ?_, ?_, ?_⟩
  · rw [he]; simp [List.countP_cons, Ev.isFetch]
  · rw [he]; simp [List.countP_cons, Ev.isShowLoading]
  · rw [submitContent, he]; simp [runEvents, applyEv, initDom]

/-- Witness for C5: an empty location with a non-empty business type. -/
theorem claim_C5_witness :
    handleLocationAnalysis "" "food_truck" [] .netFail =
      ⟨[.renderErrorEv validationMsg], none⟩ ∧
    (handleLocationAnalysis "" "food_truck" [] .netFail).events.countP
        Ev.isFetch = 0 ∧
    (handleLocationAnalysis "" "food_truck" [] .netFail).events.countP
        Ev.isShowLoading = 0 ∧
    submitContent "" "food_truck" [] .netFail =
      [.errorPanel validationMsg] :=
  claim_C5_empty_fields "" "food_truck" [] .netFail (Or.inl rfl)

/-- C9: `Analytics.sendEvent` never changes the page state and never lets
an exception out: for every settlement of the analytics request the result
is the unchanged state, with the failure at most turned into one debug-log
line. -/
theorem claim_C9_analytics_isolated (s : AppState) (ev : AnalyticsEvent)
    (o : AnalyticsOutcome) :
    (sendEvent s ev o).1 = s ∧
    ((sendEvent s ev o).2 = [] ∨
      ∃ e, o = .rejected e ∧ (sendEvent s ev o).2 = ["Analytics error: " ++ e]) := by
  rcases o with _ | e
  · exact ⟨rfl, Or.inl rfl⟩
  · exact ⟨rfl, Or.inr ⟨e, rfl, rfl⟩⟩

/-- On a well-formed cell (absent, empty string, or a valid array) a save
reads the sequence, appends exactly one record, and writes the whole
sequence back. -/
theorem saveAnalysis_appends (st : Option Stored)
    (h : st ≠ some .invalid) (analysisId ts locValue : String) :
    saveAnalysis st analysisId ts locValue =
      .ok (some (.jsonArr (storedSeq st ++ [⟨analysisId, ts, locValue⟩]))) := by
  rcases st with _ | (l | _ | _)
  · simp [saveAnalysis, readSavedAnalyses, storedSeq, Except.toOption]
  · simp [saveAnalysis, readSavedAnalyses, storedSeq, Except.toOption]
  · simp [saveAnalysis, readSavedAnalyses, storedSeq, Except.toOption]
  · exact absurd rfl h

/-- C8: round-trip on the save-list.  From any persisted state that holds
a sequence (the entry is absent or parses), `N` saves extend the read-back
sequence by exactly the `N` records, in save order, each carrying the id
and the location value supplied at its save time; and each single save is
the read-append-write of one record. -/
theorem claim_C8_save_roundtrip (entries : List (String × String × String))
    (st : Option Stored) (h : st ≠ some .invalid) :
    storedSeq (runSaves st entries) =
      storedSeq st ++ entries.map mkSavedRecord ∧
    ∀ analysisId ts locValue : String,
      saveAnalysis st analysisId ts locValue =
        .ok (some (.jsonArr (storedSeq st ++ [⟨analysisId, ts, locValue⟩]))) := by
  refine ⟨?_, fun analysisId ts locValue =>
    saveAnalysis_appends st h analysisId ts locValue⟩
  induction entries generalizing st with
  | nil => simp [runSaves]
  | cons e rest ih =>
    rw [runSaves, List.foldl_cons,
      saveAnalysis_appends st h e.1 e.2.1 e.2.2]
    have hwf : (some (Stored.jsonArr (storedSeq st ++ [⟨e.1, e.2.1, e.2.2⟩])) :
        Option Stored) ≠ some .invalid := by simp
    have := ih (some (.jsonArr (storedSeq st ++ [⟨e.1, e.2.1, e.2.2⟩]))) hwf
    rw [runSaves] at this
    rw [this]
    simp [storedSeq, readSavedAnalyses, mkSavedRecord, Except.toOption,
      List.append_assoc]

/-- Witness for C8: two saves on a fresh browser profile. -/
theorem claim_C8_witness :
    storedSeq (runSaves none
        [("a1", "2025-01-01T10:00:00Z", "Downtown Plaza"),
         ("a2", "2025-01-02T10:00:00Z", "Uptown Square")]) =
      storedSeq none ++
        [("a1", "2025-01-01T10:00:00Z", "Downtown Plaza"),
         ("a2", "2025-01-02T10:00:00Z", "Uptown Square")].map mkSavedRecord :=
  (claim_C8_save_roundtrip
    [("a1", "2025-01-01T10:00:00Z", "Downtown Plaza"),
     ("a2", "2025-01-02T10:00:00Z", "Uptown Square")] none (by decide)).1

/-- Counterexample to C10: an entry that exists but is not valid JSON need
not make `saveAnalysis` throw.  The stored empty string is rejected by
`JSON.parse`, yet `getItem(...) || missingEntryFallback` replaces any falsy
string — the empty string included — by the literal `[]`, so this save
parses, appends its record and shows the banner exactly as if the entry
were absent. -/
theorem claim_C10_counterexample :
    saveAnalysis (some .emptyStr) "a1" "2025-01-01T10:00:00Z" "Downtown Plaza"
      = .ok (some (.jsonArr
          [⟨"a1", "2025-01-01T10:00:00Z", "Downtown Plaza"⟩])) ∧
    runOp ⟨initDom, some .emptyStr⟩
        (.save "a1" "2025-01-01T10:00:00Z" "Downtown Plaza") =
      ⟨⟨true, true, [.successBanner "Analysis saved successfully!"]⟩,
       some (.jsonArr [⟨"a1", "2025-01-01T10:00:00Z", "Downtown Plaza"⟩])⟩ :=
  ⟨rfl, rfl⟩

/-- C10 as amended: when the entry holds a non-empty string that is not
valid JSON, `saveAnalysis` throws while parsing, so the page state —
stored value and rendered content alike — is left untouched and no banner
appears; the default-to-empty fallback covers the absent entry (and, per
the counterexample, also the falsy empty-string entry). -/
theorem claim_C10_invalid_json (s : AppState) (analysisId ts locValue : String)
    (h : s.storage = some .invalid) :
    saveAnalysis s.storage analysisId ts locValue = .error .jsonParseError ∧
    runOp s (.save analysisId ts locValue) = s ∧
    readSavedAnalyses none = .ok [] := by
  have hs : saveAnalysis s.storage analysisId ts locValue =
      .error .jsonParseError := by
    rw [h]; rfl
  refine ⟨hs, ?_, rfl⟩
  rw [runOp, hs]

/-- Witness for C10 on a page whose entry is corrupt. -/
theorem claim_C10_witness :
    saveAnalysis (some Stored.invalid) "a1" "2025-01-01T10:00:00Z" "Plaza"
      = .error .jsonParseError ∧
    runOp ⟨initDom, some Stored.invalid⟩
        (.save "a1" "2025-01-01T10:00:00Z" "Plaza") =
      ⟨initDom, some Stored.invalid⟩ ∧
    readSavedAnalyses none = .ok [] :=
  claim_C10_invalid_json ⟨initDom, some Stored.invalid⟩
    "a1" "2025-01-01T10:00:00Z" "Plaza" rfl

/-- Any validated submission that does not take the success branch
(`response.ok && result.success`) renders exactly the panel
`result.error || 'Analysis failed'`. -/
theorem submitContent_failure_branch (location businessType : String)
    (demo : List String) (ok : Bool) (body : AnalyzeResult)
    (h1 : location ≠ "") (h2 : businessType ≠ "")
    (hfail : ok = false ∨ body.success = false) :
    submitContent location businessType demo (.response ok body) =
      [.errorPanel (jsOrString body.error "Analysis failed")] := by
  have hcond : ¬(location = "" ∨ businessType = "") := by
    rintro (h | h)
    · exact h1 h
    · exact h2 h
  have hok : ¬(ok = true ∧ body.success = true) := by
    rcases hfail with h | h <;> simp [h]
  simp [submitContent, handleLocationAnalysis, hcond, tryBlock, hok,
    runEvents, applyEv, initDom]

/-- Counterexample to C2: a backend failure whose body carries the present
but empty error string `""`.  The claim says the panel shows the body's
error string whenever present; the code evaluates
`result.error || 'Analysis failed'`, for which the empty string is falsy,
so the generic message is shown instead. -/
theorem claim_C2_counterexample :
    submitContent "Downtown Plaza" "food_truck" []
        (.response true ⟨false, none, none, some ""⟩) =
      [.errorPanel "Analysis failed"] ∧
    submitContent "Downtown Plaza" "food_truck" []
        (.response true ⟨false, none, none, some ""⟩) ≠
      [.errorPanel ""] := by
  refine ⟨rfl, ?_⟩
  have hval : submitContent "Downtown Plaza" "food_truck" []
      (.response true ⟨false, none, none, some ""⟩) =
      [.errorPanel "Analysis failed"] := rfl
  rw [hval]
  simp

/-- C2 as amended: on a resolved fetch that misses the success branch the
panel shows the body's error string when it is present and non-empty, and
the generic "Analysis failed" message when the error field is absent or
empty; on a rejected fetch the panel shows the generic network-error
message. -/
theorem claim_C2_error_messages (location businessType : String)
    (demo : List String) (h1 : location ≠ "") (h2 : businessType ≠ "") :
    (∀ (ok : Bool) (body : AnalyzeResult) (s : String),
      (ok = false ∨ body.success = false) → body.error = some s → s ≠ "" →
        submitContent location businessType demo (.response ok body) =
          [.errorPanel s]) ∧
    (∀ (ok : Bool) (body : AnalyzeResult),
      (ok = false ∨ body.success = false) →
      (body.error = none ∨ body.error = some "") →
        submitContent location businessType demo (.response ok body) =
          [.errorPanel "Analysis failed"]) ∧
    submitContent location businessType demo .netFail =
      [.errorPanel networkErrorMsg] := by
  have hcond : ¬(location = "" ∨ businessType = "") := by
    rintro (h | h)
    · exact h1 h
    · exact h2 h
  refine ⟨?_, ?_, ?_⟩
  · intro ok body s hfail herr hne
    rw [submitContent_failure_branch location businessType demo ok body
      h1 h2 hfail]
    simp [jsOrString, herr, hne]
  · intro ok body hfail herr
    rw [submitContent_failure_branch location businessType demo ok body
      h1 h2 hfail]
    rcases herr with h | h <;> simp [jsOrString, h]
  · simp [submitContent, handleLocationAnalysis, hcond, tryBlock,
      runEvents, applyEv, initDom]

/-- Witness for C2: an HTTP 500 whose body says "rate limited". -/
theorem claim_C2_witness :
    submitContent "Downtown Plaza" "food_truck" []
        (.response false ⟨false, none, none, some "rate limited"⟩) =
      [.errorPanel "rate limited"] :=
  (claim_C2_error_messages "Downtown Plaza" "food_truck" []
      (by decide) (by decide)).1
    false ⟨false, none, none, some "rate limited"⟩ "rate limited"
    (Or.inl rfl) rfl (by decide)

/-- Counterexample to C6: a 2xx `success:true` body with no
`recommendation`.  The renderer does access the missing field and throws a
`TypeError` — but the page does not crash: the submission handler's
catch-all swallows the throw (`uncaught = none`), hides the loading modal,
and renders the generic network-error panel, so the failure is misreported
rather than ungraceful. -/
theorem claim_C6_counterexample :
    displayResults ⟨true, some "a1", none, none⟩ = .error .typeError ∧
    (handleLocationAnalysis "Downtown Plaza" "food_truck" []
        (.response true ⟨true, some "a1", none, none⟩)).uncaught = none ∧
    submitContent "Downtown Plaza" "food_truck" []
        (.response true ⟨true, some "a1", none, none⟩) =
      [.errorPanel networkErrorMsg] :=
  ⟨rfl, rfl, rfl⟩

/-- C6 as amended: on a 2xx `success:true` body whose `recommendation` or
`insights` is missing, the renderer accesses the fields unconditionally
and throws a `TypeError`; no `BackendError` is reported — instead the
handler's catch swallows the exception and renders the misleading generic
network-error panel, and the page does not crash. -/
theorem claim_C6_malformed_payload (location businessType : String)
    (demo : List String) (result : AnalyzeResult)
    (h1 : location ≠ "") (h2 : businessType ≠ "")
    (hs : result.success = true)
    (hm : result.recommendation = none ∨
      ∃ rec, result.recommendation = some rec ∧ rec.insights = none) :
    displayResults result = .error .typeError ∧
    (handleLocationAnalysis location businessType demo
        (.response true result)).uncaught = none ∧
    submitContent location businessType demo (.response true result) =
      [.errorPanel networkErrorMsg] := by
  have hcond : ¬(location = "" ∨ businessType = "") := by
    rintro (h | h)
    · exact h1 h
    · exact h2 h
  have hd : displayResults result = .error .typeError := by
    rcases hm with h | ⟨rec, h, hins⟩
    · simp [displayResults, h]
    · simp [displayResults, h, hins]
  refine ⟨hd, ?_, ?_⟩
  · simp [handleLocationAnalysis, hcond, tryBlock, hs, hd]
  · simp [submitContent, handleLocationAnalysis, hcond, tryBlock, hs, hd,
      runEvents, applyEv, initDom]

/-- Witness for C6 at the counterexample's malformed body. -/
theorem claim_C6_witness :
    displayResults ⟨true, some "a1", none, none⟩ = .error .typeError ∧
    (handleLocationAnalysis "Central Park" "coffee_shop" ["students"]
        (.response true ⟨true, some "a1", none, none⟩)).uncaught = none ∧
    submitContent "Central Park" "coffee_shop" ["students"]
        (.response true ⟨true, some "a1", none, none⟩) =
      [.errorPanel networkErrorMsg] :=
  claim_C6_malformed_payload "Central Park" "coffee_shop" ["students"]
    ⟨true, some "a1", none, none⟩ (by decide) (by decide) rfl (Or.inl rfl)

/-- Every completed submission leaves `results-content` holding exactly
one block: the new card or the new error panel fully replaces whatever was
rendered before. -/
theorem submit_replaces_content (s : AppState) (location businessType : String)
    (demo : List String) (o : AnalyzeOutcome) :
    ∃ b, (runOp s (.submit location businessType demo o)).dom.content = [b] := by
  by_cases hv : location = "" ∨ businessType = ""
  · exact ⟨.errorPanel validationMsg,
      by simp [runOp, handleLocationAnalysis, hv, runEvents, applyEv]⟩
  · rcases o with _ | ok | ⟨ok, body⟩
    · exact ⟨.errorPanel networkErrorMsg,
        by simp [runOp, handleLocationAnalysis, hv, tryBlock, runEvents, applyEv]⟩
    · exact ⟨.errorPanel networkErrorMsg,
        by simp [runOp, handleLocationAnalysis, hv, tryBlock, runEvents, applyEv]⟩
    · by_cases hok : ok = true ∧ body.success = true
      · rcases hdr : displayResults body with e | html
        · exact ⟨.errorPanel networkErrorMsg,
            by simp [runOp, handleLocationAnalysis, hv, tryBlock, hok, hdr,
              runEvents, applyEv]⟩
        · exact ⟨.card html,
            by simp [runOp, handleLocationAnalysis, hv, tryBlock, hok, hdr,
              runEvents, applyEv]⟩
      · exact ⟨.errorPanel (jsOrString body.error "Analysis failed"),
          by simp [runOp, handleLocationAnalysis, hv, tryBlock, hok,
            runEvents, applyEv]⟩

/-- Each page interaction keeps the number of rendered result/error panels
at most one: a submission replaces the content with one block, a save only
prepends a banner (or throws and changes nothing), and a reset only hides
the section. -/
theorem panelCount_runOp (s : AppState) (op : Op)
    (h : panelCount s.dom.content ≤ 1) :
    panelCount (runOp s op).dom.content ≤ 1 := by
  rcases op with ⟨location, businessType, demo, o⟩ | ⟨analysisId, ts, locValue⟩ | _
  · obtain ⟨b, hb⟩ := submit_replaces_content s location businessType demo o
    rw [hb]
    exact (List.length_filter_le _ _).trans (by simp)
  · rw [runOp]
    rcases hsave : saveAnalysis s.storage analysisId ts locValue with e | st
    · exact h
    · simpa [showSuccess, panelCount, Block.isResultPanel] using h
  · simpa [runOp, newAnalysis] using h

/-- C7: at most one analysis result or error panel is rendered at any
time.  First part: on every state the page can reach from a fresh load by
submissions, saves and resets, `results-content` holds at most one
result/error panel.  Second part: every completed submission fully
replaces the rendered content with its single new block. -/
theorem claim_C7_at_most_one_result :
    (∀ ops : List Op, renderedPanels ((runOps initApp ops).dom) ≤ 1) ∧
    (∀ (s : AppState) (location businessType : String)
        (demo : List String) (o : AnalyzeOutcome),
      ∃ b, (runOp s (.submit location businessType demo o)).dom.content = [b]) ∧
    (∀ s : AppState, (runOp s .reset).dom.resultsHidden = true ∧
      (runOp s .reset).dom.content = s.dom.content) := by
  refine ⟨?_, submit_replaces_content, fun s => ⟨rfl, rfl⟩⟩
  have inv : ∀ (ops : List Op) (s : AppState),
      panelCount s.dom.content ≤ 1 →
      panelCount ((runOps s ops).dom.content) ≤ 1 := by
    intro ops
    induction ops with
    | nil => intro s h; simpa [runOps] using h
    | cons op rest ih =>
      intro s h
      rw [runOps, List.foldl_cons]
      exact ih (runOp s op) (panelCount_runOp s op h)
  intro ops
  have hcount := inv ops initApp (by simp [initApp, initDom, panelCount])
  rw [renderedPanels]
  split_ifs
  · exact Nat.zero_le 1
  · exact hcount

/-- Class search distributes over sibling concatenation. -/
theorem byClassList_append (c : String) (xs ys : List Html) :
    Html.byClassList c (xs ++ ys) =
      Html.byClassList c xs ++ Html.byClassList c ys := by
  induction xs with
  | nil => simp [Html.byClassList]
  | cons h hs ih => simp [Html.byClassList, ih]

/-- The confidence badge class is always one of the three tiers. -/
theorem getConfidenceClass_mem (s : ℚ) :
    getConfidenceClass s = "confidence-high" ∨
    getConfidenceClass s = "confidence-medium" ∨
    getConfidenceClass s = "confidence-low" := by
  rw [getConfidenceClass]
  split_ifs <;> simp

/-- No class outside the three tiers matches the badge class. -/
theorem getConfidenceClass_ne (s : ℚ) (c : String)
    (h1 : c ≠ "confidence-high") (h2 : c ≠ "confidence-medium")
    (h3 : c ≠ "confidence-low") : ¬(c = getConfidenceClass s) := by
  rcases getConfidenceClass_mem s with h | h | h <;> rw [h] <;> assumption

/-- The gaps section holds no class other than `category-gaps`. -/
theorem byClassList_gapsSection_ne (c : String) (gaps : List String)
    (h : c ≠ "category-gaps") :
    Html.byClassList c (gapsSection gaps) = [] := by
  rw [gapsSection]
  split_ifs
  · simp [Html.byClassList, Html.byClass, h]
  · rfl

/-- Searching the gaps section for `category-gaps` returns the section. -/
theorem byClassList_gapsSection_self (gaps : List String) :
    Html.byClassList "category-gaps" (gapsSection gaps) = gapsSection gaps := by
  rw [gapsSection]
  split_ifs
  · simp [Html.byClassList, Html.byClass, gapsSection, *]
  · rfl

/-- The attractions section holds no class other than `attractions`. -/
theorem byClassList_attractionsSection_ne (c : String) (l : List String)
    (h : c ≠ "attractions") :
    Html.byClassList c (attractionsSection l) = [] := by
  rw [attractionsSection]
  split_ifs
  · simp [Html.byClassList, Html.byClass, h]
  · rfl

/-- Searching the attractions section for `attractions` returns the
section. -/
theorem byClassList_attractionsSection_self (l : List String) :
    Html.byClassList "attractions" (attractionsSection l) = attractionsSection l := by
  rw [attractionsSection]
  split_ifs
  · simp [Html.byClassList, Html.byClass, attractionsSection, *]
  · rfl

/-- The `li` entries of the risk list hold no classes at all. -/
theorem byClassList_riskItems (c : String) (risks : List String) :
    Html.byClassList c (risks.map fun r => Html.elem "li" [] [Html.text r]) = [] := by
  induction risks with
  | nil => rfl
  | cons r rest ih => simp [Html.byClassList, Html.byClass, ih]

/-- The risks section holds no class other than `risk-factors`. -/
theorem byClassList_risksSection_ne (c : String) (risks : List String)
    (h : c ≠ "risk-factors") :
    Html.byClassList c (risksSection risks) = [] := by
  rw [risksSection]
  split_ifs
  · simp [Html.byClassList, Html.byClass, h, byClassList_riskItems]
  · rfl

/-- Searching the risks section for `risk-factors` returns the section. -/
theorem byClassList_risksSection_self (risks : List String) :
    Html.byClassList "risk-factors" (risksSection risks) = risksSection risks := by
  rw [risksSection]
  split_ifs
  · simp [Html.byClassList, Html.byClass, risksSection, byClassList_riskItems, *]
  · rfl

/-- In the whole card, `category-gaps` matches exactly the gaps section. -/
theorem byClass_renderCard_gaps (result : AnalyzeResult) (rec : Recommendation)
    (ins : Insights) :
    Html.byClass "category-gaps" (renderCard result rec ins) =
      gapsSection ins.category_gaps := by
  have hb : ¬("category-gaps" = getConfidenceClass rec.confidence_score) :=
    getConfidenceClass_ne _ _ (by decide) (by decide) (by decide)
  simp [renderCard, metricsGrid, metricCard, Html.byClass, Html.byClassList,
    byClassList_append, hb, byClassList_gapsSection_self]
  exact ⟨byClassList_attractionsSection_ne _ _ (by decide),
    byClassList_risksSection_ne _ _ (by decide),
    byClassList_riskItems _ _⟩

/-- In the whole card, `attractions` matches exactly the attractions
section. -/
theorem byClass_renderCard_attractions (result : AnalyzeResult)
    (rec : Recommendation) (ins : Insights) :
    Html.byClass "attractions" (renderCard result rec ins) =
      attractionsSection ins.nearby_attractions := by
  have hb : ¬("attractions" = getConfidenceClass rec.confidence_score) :=
    getConfidenceClass_ne _ _ (by decide) (by decide) (by decide)
  have hg := byClassList_gapsSection_ne "attractions" ins.category_gaps (by decide)
  have hr := byClassList_risksSection_ne "attractions" ins.risk_factors (by decide)
  simp [renderCard, metricsGrid, metricCard, Html.byClass, Html.byClassList,
    byClassList_append, hb, hg, hr, byClassList_riskItems,
    byClassList_attractionsSection_self]

/-- In the whole card, `risk-factors` matches exactly the risks section. -/
theorem byClass_renderCard_risks (result : AnalyzeResult)
    (rec : Recommendation) (ins : Insights) :
    Html.byClass "risk-factors" (renderCard result rec ins) =
      risksSection ins.risk_factors := by
  have hb : ¬("risk-factors" = getConfidenceClass rec.confidence_score) :=
    getConfidenceClass_ne _ _ (by decide) (by decide) (by decide)
  have hg := byClassList_gapsSection_ne "risk-factors" ins.category_gaps (by decide)
  have ha := byClassList_attractionsSection_ne "risk-factors"
    ins.nearby_attractions (by decide)
  simp [renderCard, metricsGrid, metricCard, Html.byClass, Html.byClassList,
    byClassList_append, hb, hg, ha, byClassList_riskItems,
    byClassList_risksSection_self]

/-- In the whole card, `metric-value` matches exactly the four tile
values, in template order. -/
theorem byClass_renderCard_metric_value (result : AnalyzeResult)
    (rec : Recommendation) (ins : Insights) :
    Html.byClass "metric-value" (renderCard result rec ins) =
      [.elem "div" ["metric-value"]
         [.text (toString (jsRound ins.foot_traffic_score))],
       .elem "div" ["metric-value"]
         [.text (toString (jsRound ins.competition_density))],
       .elem "div" ["metric-value"]
         [.text (toString (jsRound ins.demographic_match))],
       .elem "div" ["metric-value"]
         [.text (toString ins.category_gaps.length)]] := by
  have hb : ¬("metric-value" = getConfidenceClass rec.confidence_score) :=
    getConfidenceClass_ne _ _ (by decide) (by decide) (by decide)
  have hg := byClassList_gapsSection_ne "metric-value" ins.category_gaps (by decide)
  have ha := byClassList_attractionsSection_ne "metric-value"
    ins.nearby_attractions (by decide)
  have hr := byClassList_risksSection_ne "metric-value" ins.risk_factors (by decide)
  simp [renderCard, metricsGrid, metricCard, Html.byClass, Html.byClassList,
    byClassList_append, hb, hg, ha, hr, byClassList_riskItems]

/-- In the whole card, `confidence-score` matches exactly the badge. -/
theorem byClass_renderCard_badge (result : AnalyzeResult)
    (rec : Recommendation) (ins : Insights) :
    Html.byClass "confidence-score" (renderCard result rec ins) =
      [.elem "span" ["confidence-score", getConfidenceClass rec.confidence_score]
         [.text (toString (jsRound rec.confidence_score) ++ "% Confidence")]] := by
  have hg := byClassList_gapsSection_ne "confidence-score" ins.category_gaps
    (by decide)
  have ha := byClassList_attractionsSection_ne "confidence-score"
    ins.nearby_attractions (by decide)
  have hr := byClassList_risksSection_ne "confidence-score" ins.risk_factors
    (by decide)
  simp [renderCard, metricsGrid, metricCard, Html.byClass, Html.byClassList,
    byClassList_append, hg, ha, hr, byClassList_riskItems]

/-- The badge reads "confidence-high" exactly when the unrounded score is
at least 70. -/
theorem getConfidenceClass_high_iff (s : ℚ) :
    getConfidenceClass s = "confidence-high" ↔ 70 ≤ s := by
  rw [getConfidenceClass]
  split_ifs with h1 h2
  · simpa using h1
  · simpa using h1
  · simpa using h1

/-- The badge reads "confidence-medium" exactly when the unrounded score
is in `[50, 70)`. -/
theorem getConfidenceClass_medium_iff (s : ℚ) :
    getConfidenceClass s = "confidence-medium" ↔ 50 ≤ s ∧ s < 70 := by
  rw [getConfidenceClass]
  split_ifs with h1 h2
  · simp
    intro _
    exact h1
  · simp [h2, lt_of_not_le h1]
  · simp
    intro h
    exact absurd h (fun hh => h2 hh)

/-- The badge reads "confidence-low" exactly when the unrounded score is
below 50. -/
theorem getConfidenceClass_low_iff (s : ℚ) :
    getConfidenceClass s = "confidence-low" ↔ s < 50 := by
  rw [getConfidenceClass]
  split_ifs with h1 h2
  · simp
    exact le_trans (show (50:ℚ) ≤ 70 by norm_num) h1
  · simp [not_lt.mpr h2]
  · simp [lt_of_not_le h2]

/-- In the whole card, `confidence-high` can match only the badge, and
does so exactly when the badge class is the high tier. -/
theorem byClass_renderCard_high (result : AnalyzeResult)
    (rec : Recommendation) (ins : Insights) :
    Html.byClass "confidence-high" (renderCard result rec ins) =
      if "confidence-high" = getConfidenceClass rec.confidence_score
      then [.elem "span"
              ["confidence-score", getConfidenceClass rec.confidence_score]
              [.text (toString (jsRound rec.confidence_score) ++ "% Confidence")]]
      else [] := by
  have hg := byClassList_gapsSection_ne "confidence-high" ins.category_gaps
    (by decide)
  have ha := byClassList_attractionsSection_ne "confidence-high"
    ins.nearby_attractions (by decide)
  have hr := byClassList_risksSection_ne "confidence-high" ins.risk_factors
    (by decide)
  simp [renderCard, metricsGrid, metricCard, Html.byClass, Html.byClassList,
    byClassList_append, hg, ha, hr, byClassList_riskItems]

/-- In the whole card, `confidence-medium` can match only the badge, and
does so exactly when the badge class is the medium tier. -/
theorem byClass_renderCard_medium (result : AnalyzeResult)
    (rec : Recommendation) (ins : Insights) :
    Html.byClass "confidence-medium" (renderCard result rec ins) =
      if "confidence-medium" = getConfidenceClass rec.confidence_score
      then [.elem "span"
              ["confidence-score", getConfidenceClass rec.confidence_score]
              [.text (toString (jsRound rec.confidence_score) ++ "% Confidence")]]
      else [] := by
  have hg := byClassList_gapsSection_ne "confidence-medium" ins.category_gaps
    (by decide)
  have ha := byClassList_attractionsSection_ne "confidence-medium"
    ins.nearby_attractions (by decide)
  have hr := byClassList_risksSection_ne "confidence-medium" ins.risk_factors
    (by decide)
  simp [renderCard, metricsGrid, metricCard, Html.byClass, Html.byClassList,
    byClassList_append, hg, ha, hr, byClassList_riskItems]

/-- In the whole card, `confidence-low` can match only the badge, and
does so exactly when the badge class is the low tier. -/
theorem byClass_renderCard_low (result : AnalyzeResult)
    (rec : Recommendation) (ins : Insights) :
    Html.byClass "confidence-low" (renderCard result rec ins) =
      if "confidence-low" = getConfidenceClass rec.confidence_score
      then [.elem "span"
              ["confidence-score", getConfidenceClass rec.confidence_score]
              [.text (toString (jsRound rec.confidence_score) ++ "% Confidence")]]
      else [] := by
  have hg := byClassList_gapsSection_ne "confidence-low" ins.category_gaps
    (by decide)
  have ha := byClassList_attractionsSection_ne "confidence-low"
    ins.nearby_attractions (by decide)
  have hr := byClassList_risksSection_ne "confidence-low" ins.risk_factors
    (by decide)
  simp [renderCard, metricsGrid, metricCard, Html.byClass, Html.byClassList,
    byClassList_append, hg, ha, hr, byClassList_riskItems]

/-- C3: in every rendered card the badge carries `confidence-high` iff the
unrounded score is at least 70, `confidence-medium` iff it lies in
`[50, 70)`, and `confidence-low` iff it is below 50; the badge text is the
rounded score followed by "% Confidence"; and the four metric tiles show
the rounded foot-traffic, competition and demographic-match inputs and the
number of category gaps, in that order. -/
theorem claim_C3_badge_and_tiles (result : AnalyzeResult)
    (rec : Recommendation) (ins : Insights) :
    (Html.byClass "confidence-high" (renderCard result rec ins) ≠ [] ↔
      70 ≤ rec.confidence_score) ∧
    (Html.byClass "confidence-medium" (renderCard result rec ins) ≠ [] ↔
      50 ≤ rec.confidence_score ∧ rec.confidence_score < 70) ∧
    (Html.byClass "confidence-low" (renderCard result rec ins) ≠ [] ↔
      rec.confidence_score < 50) ∧
    (Html.byClass "confidence-score" (renderCard result rec ins)).map
        Html.textContent =
      [toString (jsRound rec.confidence_score) ++ "% Confidence"] ∧
    (Html.byClass "metric-value" (renderCard result rec ins)).map
        Html.textContent =
      [toString (jsRound ins.foot_traffic_score),
       toString (jsRound ins.competition_density),
       toString (jsRound ins.demographic_match),
       toString ins.category_gaps.length] := by
  refine ⟨?_, ?_, ?_, ?_, ?_⟩
  · rw [byClass_renderCard_high, ← getConfidenceClass_high_iff]
    split_ifs with h
    · simp [h.symm]
    · simp [Ne.symm h]
  · rw [byClass_renderCard_medium, ← getConfidenceClass_medium_iff]
    split_ifs with h
    · simp [h.symm]
    · simp [Ne.symm h]
  · rw [byClass_renderCard_low, ← getConfidenceClass_low_iff]
    split_ifs with h
    · simp [h.symm]
    · simp [Ne.symm h]
  · rw [byClass_renderCard_badge]
    simp [Html.textContent, Html.textContentList]
  · rw [byClass_renderCard_metric_value]
    simp [Html.textContent, Html.textContentList]

/-- C4: in every rendered card each of the three conditional blocks is
entirely absent exactly when its backing list is empty, and when present
it renders that list in order: the gaps and attractions blocks join the
elements with ", ", the risks block holds one `li` per element. -/
theorem claim_C4_conditional_sections (result : AnalyzeResult)
    (rec : Recommendation) (ins : Insights) :
    (Html.byClass "category-gaps" (renderCard result rec ins) = [] ↔
      ins.category_gaps = []) ∧
    Html.byClass "category-gaps" (renderCard result rec ins) =
      (if ins.category_gaps = [] then [] else
        [.elem "div" ["category-gaps"]
          [.elem "h4" [] [.text "Market Opportunities"],
           .elem "p" []
             [.text ("Underserved categories: " ++
               String.intercalate ", " ins.category_gaps)]]]) ∧
    (Html.byClass "attractions" (renderCard result rec ins) = [] ↔
      ins.nearby_attractions = []) ∧
    Html.byClass "attractions" (renderCard result rec ins) =
      (if ins.nearby_attractions = [] then [] else
        [.elem "div" ["attractions"]
          [.elem "h4" [] [.text "Nearby Attractions"],
           .elem "p" []
             [.text (String.intercalate ", " ins.nearby_attractions)]]]) ∧
    (Html.byClass "risk-factors" (renderCard result rec ins) = [] ↔
      ins.risk_factors = []) ∧
    Html.byClass "risk-factors" (renderCard result rec ins) =
      (if ins.risk_factors = [] then [] else
        [.elem "div" ["risk-factors"]
          [.elem "h4" [] [.text "Risk Factors"],
           .elem "ul" []
             (ins.risk_factors.map fun r => Html.elem "li" [] [Html.text r])]]) := by
  refine ⟨?_, ?_, ?_, ?_, ?_, ?_⟩
  · rw [byClass_renderCard_gaps]
    cases ins.category_gaps <;> simp [gapsSection]
  · rw [byClass_renderCard_gaps]
    cases ins.category_gaps <;> simp [gapsSection]
  · rw [byClass_renderCard_attractions]
    cases ins.nearby_attractions <;> simp [attractionsSection]
  · rw [byClass_renderCard_attractions]
    cases ins.nearby_attractions <;> simp [attractionsSection]
  · rw [byClass_renderCard_risks]
    cases ins.risk_factors <;> simp [risksSection]
  · rw [byClass_renderCard_risks]
    cases ins.risk_factors <;> simp [risksSection]
